import Mathlib

/-!
Verification development for the Resim UDP tooling (heheyouming4343/AIdim).

The core under scrutiny is the frame codec and dispatch logic:
 * `parse_resim_data` (udp_receiver.py, lines 42-157): decodes an inbound UDP
   datagram by testing its ASCII prefix through an if/elif chain and unpacking
   little-endian int32 fields;
 * `create_lane_change_command` (lane_change_test.py, lines 43-57 and the
   identical inline encoding in udp_specific_test.py, line 50): encodes the
   outbound lane-change command;
 * the statistics update in the body of `udp_listener` (udp_receiver.py,
   lines 169-201).

Bytes are modelled as `List Nat` (each element below 256 in a real datagram).
Python `str` values are modelled as `List Char`.  Fallible operations
(`struct.unpack`, `struct.pack`) return `Option`; a `none` corresponds to the
`struct.error` exception the source catches with `try`/`except`.
-/

namespace ResimUdp

/-- `bytes.decode('ascii', errors='replace')` on a single byte: bytes below
0x80 map to the corresponding character, all others to U+FFFD. -/
def asciiReplaceChar (b : Nat) : Char :=
  if b < 128 then Char.ofNat b else Char.ofNat 65533

/-- `bytes.decode('ascii', errors='replace')`: per-byte replacement decoding;
this decoder never raises, so the `except` fallbacks guarding it in the source
(udp_receiver.py lines 57-60 and 198-199) are unreachable. -/
def asciiReplace (bs : List Nat) : List Char :=
  bs.map asciiReplaceChar

/-- One lowercase hexadecimal digit, as produced by `binascii.hexlify`. -/
def hexDigitChar (n : Nat) : Char :=
  if n < 10 then Char.ofNat (48 + n) else Char.ofNat (87 + n)

/-- `binascii.hexlify(data).decode()`: two lowercase hex digits per byte. -/
def hexlify : List Nat → List Char
  | [] => []
  | b :: bs => hexDigitChar (b / 16) :: hexDigitChar (b % 16) :: hexlify bs

/-- `data.startswith(pfx)` on raw bytes. -/
def bytesStartWith : List Nat → List Nat → Bool
  | _, [] => true
  | [], _ :: _ => false
  | b :: bs, p :: ps => b == p && bytesStartWith bs ps

/-- The unsigned value of a 4-byte little-endian word (`data[0] + data[1]*256 + ...`). -/
def le32ToNat (bs : List Nat) : Nat :=
  bs.getD 0 0 + 256 * bs.getD 1 0 + 65536 * bs.getD 2 0 + 16777216 * bs.getD 3 0

/-- Reinterpret an unsigned 32-bit value as a signed (two's-complement) int32. -/
def asInt32 (u : Nat) : Int :=
  if u < 2147483648 then (u : Int) else (u : Int) - 4294967296

/-- The signed int32 denoted by a 4-byte little-endian slice. -/
def toI32le (bs : List Nat) : Int :=
  asInt32 (le32ToNat bs)

/-- `struct.unpack('<i', bs)[0]`: requires exactly 4 bytes, otherwise
`struct.error` is raised (modelled as `none`). -/
def unpack_i32le (bs : List Nat) : Option Int :=
  if bs.length = 4 then some (toI32le bs) else none

/-- `prefix2 = data[:2].decode('ascii', errors='replace')` (udp_receiver.py line 54). -/
def prefix2Of (data : List Nat) : List Char :=
  asciiReplace (data.take 2)

/-- `prefix3 = data[:3].decode(...) if len(data) >= 3 else prefix2` (line 55). -/
def prefix3Of (data : List Nat) : List Char :=
  if 3 ≤ data.length then asciiReplace (data.take 3) else prefix2Of data

/-- `prefix4 = data[:4].decode(...) if len(data) >= 4 else prefix3` (line 56). -/
def prefix4Of (data : List Nat) : List Char :=
  if 4 ≤ data.length then asciiReplace (data.take 4) else prefix3Of data

/-- The possible return values of `parse_resim_data`.  The source returns
formatted strings; each constructor records the return site and the dynamic
values interpolated into its format string.  UTF-8 payloads decoded with
`errors='replace'` are kept as raw bytes. -/
inductive ParseResult where
  /-- Line 50: `数据包太短` (packet too short), carries the full hex dump. -/
  | tooShort (hex : List Char)
  /-- Line 66: `RSd` frame of exactly 3 bytes, sync signal. -/
  | syncSignal
  /-- Line 67: `RSd` frame longer than 3 bytes, vehicle-state blob. -/
  | vehicleState (pfx : List Char) (size : Nat)
  /-- Line 73: frame starting with `TEST_`, echoed as UTF-8 text. -/
  | testString (raw : List Nat)
  /-- Line 82: `AP` agent-position blob, size only. -/
  | agentPosition (size : Nat)
  /-- Line 85: `AS` agent-state blob, size only. -/
  | agentState (size : Nat)
  /-- Line 90: `TS` traffic-signal blob, size only. -/
  | trafficSignal (size : Nat)
  /-- Line 97: frame starting with `TSPY`, counter plus UTF-8 remainder. -/
  | testMessage (counter : Int) (body : List Nat)
  /-- Line 99: `except` fallback of the `TSPY` branch (counter unpack failed). -/
  | testMessageNoCounter (body : List Nat)
  /-- Line 111: `SS` frame with decoded int32 status. -/
  | simStatus (status : Int)
  /-- Line 113: `except` fallback of the `SS` unpack. -/
  | simStatusError (hex : List Char)
  /-- Line 114: `SS` frame shorter than 6 bytes, size only. -/
  | simStatusBlob (size : Nat)
  /-- Line 122: `CL` lane-change command with three decoded int32 fields. -/
  | laneChangeCmd (agentId : Int) (direction : Int) (mode : Int)
  /-- Line 124: `except` fallback of the `CL` unpacks. -/
  | laneChangeCmdError (hex : List Char)
  /-- Line 132: `RL` lane-change response with three decoded int32 fields. -/
  | laneChangeResp (agentId : Int) (result : Int) (reasonCode : Int)
  /-- Line 134: `except` fallback of the `RL` unpacks. -/
  | laneChangeRespError (hex : List Char)
  /-- Line 138: `CS` start-simulation command. -/
  | startSim
  /-- Line 142: `CP` pause-simulation command. -/
  | pauseSim
  /-- Line 146: `CR` resume-simulation command. -/
  | resumeSim
  /-- Line 150: one of the prefixes `RS`, `RP`, `RQ`, `CC`, full hex dump. -/
  | genericCmd (pfx : List Char) (hex : List Char)
  /-- Line 153: unrecognized frame; hex dump truncated to `hex_data[:60]`. -/
  | unrecognized (pfx : List Char) (size : Nat) (hex : List Char)
deriving DecidableEq

/-- The `TSPY` branch body (udp_receiver.py lines 93-99): unpack the counter
from `data[4:8]`, decode the remainder; on `struct.error` fall back to the
`except` clause that only decodes `data[4:]`. -/
def tspyBranch (data : List Nat) : ParseResult :=
  match unpack_i32le ((data.drop 4).take 4) with
  | some counter => .testMessage counter (data.drop 8)
  | none => .testMessageNoCounter (data.drop 4)

/-- The `SS` branch body (lines 102-114). -/
def ssBranch (data : List Nat) : ParseResult :=
  if 6 ≤ data.length then
    match unpack_i32le ((data.drop 2).take 4) with
    | some status => .simStatus status
    | none => .simStatusError (hexlify data)
  else
    .simStatusBlob data.length

/-- The `CL` branch body (lines 117-124): three sequential unpacks from
`data[2:6]`, `data[6:10]`, `data[10:14]`; a failing unpack raises into the
`except` clause. -/
def clBranch (data : List Nat) : ParseResult :=
  match unpack_i32le ((data.drop 2).take 4), unpack_i32le ((data.drop 6).take 4),
      unpack_i32le ((data.drop 10).take 4) with
  | some a, some d, some m => .laneChangeCmd a d m
  | _, _, _ => .laneChangeCmdError (hexlify data)

/-- The `RL` branch body (lines 127-134). -/
def rlBranch (data : List Nat) : ParseResult :=
  match unpack_i32le ((data.drop 2).take 4), unpack_i32le ((data.drop 6).take 4),
      unpack_i32le ((data.drop 10).take 4) with
  | some a, some r, some c => .laneChangeResp a r c
  | _, _, _ => .laneChangeRespError (hexlify data)

/-- `'成功' if result == 1 else '失败'` — the success condition rendered by the
`RL` branch (udp_receiver.py line 132, lane_change_test.py line 125). -/
def rl_succeeded (result : Int) : Bool :=
  result == 1

/-- `parse_resim_data` (udp_receiver.py lines 42-157), the if/elif chain in
source order.  The outer `try`/`except` (lines 44, 155-157) is elided: every
operation in the body either cannot raise (replacement-mode decodes, slicing)
or is wrapped in a local `try`/`except` modelled by the `Option` matches in
the branch bodies, so the outer handler is unreachable. -/
def parse_resim_data (data : List Nat) : ParseResult :=
  if data.length < 2 then .tooShort (hexlify data)
  else if prefix3Of data = ['R', 'S', 'd'] then
    (if data.length = 3 then .syncSignal else .vehicleState (prefix3Of data) data.length)
  else if bytesStartWith data [84, 69, 83, 84, 95] then .testString data
  else if prefix2Of data = ['A', 'P'] then .agentPosition data.length
  else if prefix2Of data = ['A', 'S'] then .agentState data.length
  else if prefix2Of data = ['T', 'S'] then .trafficSignal data.length
  else if bytesStartWith data [84, 83, 80, 89] then tspyBranch data
  else if prefix2Of data = ['S', 'S'] then ssBranch data
  else if prefix2Of data = ['C', 'L'] ∧ 14 ≤ data.length then clBranch data
  else if prefix2Of data = ['R', 'L'] ∧ 14 ≤ data.length then rlBranch data
  else if prefix2Of data = ['C', 'S'] then .startSim
  else if prefix2Of data = ['C', 'P'] then .pauseSim
  else if prefix2Of data = ['C', 'R'] then .resumeSim
  else if prefix2Of data = ['R', 'S'] ∨ prefix2Of data = ['R', 'P'] ∨
      prefix2Of data = ['R', 'Q'] ∨ prefix2Of data = ['C', 'C'] then
    .genericCmd (prefix2Of data) (hexlify data)
  else
    .unrecognized (prefix4Of data) data.length ((hexlify data).take 60)

/-- The value range accepted by `struct.pack('<i', n)`. -/
def int32Ok (n : Int) : Prop :=
  -2147483648 ≤ n ∧ n < 2147483648

instance (n : Int) : Decidable (int32Ok n) := by
  unfold int32Ok; infer_instance

/-- `struct.pack('<i', n)`: the 4-byte little-endian two's-complement encoding. -/
def i32le (n : Int) : List Nat :=
  let u := (n % 4294967296).toNat
  [u % 256, u / 256 % 256, u / 65536 % 256, u / 16777216 % 256]

/-- `create_lane_change_command` (lane_change_test.py lines 43-57):
`b'CL' + struct.pack('<iii', agent_id, direction, mode)`.  `struct.pack`
raises (modelled as `none`) when an argument is outside the int32 range;
no other validation is performed. -/
def create_lane_change_command (agent_id direction mode : Int) : Option (List Nat) :=
  if int32Ok agent_id ∧ int32Ok direction ∧ int32Ok mode then
    some (67 :: 76 :: (i32le agent_id ++ i32le direction ++ i32le mode))
  else
    none

/-- The global `stats` dict of udp_receiver.py (lines 32-37), restricted to the
fields the receive loop mutates per frame.  `last_packet_time` (a wall-clock
timestamp) is elided; `last_commands` entries keep the hex dump and the parse
result but elide the timestamp, port and sender address. -/
structure Stats where
  total_packets : Nat
  command_counts : List (List Char × Nat)
  last_commands : List (List Char × ParseResult)
deriving DecidableEq

/-- Python `dict.get(key, 0)` over an insertion-ordered association list. -/
def dictGet : List (List Char × Nat) → List Char → Nat
  | [], _ => 0
  | (k, v) :: rest, key => if k = key then v else dictGet rest key

/-- Python `d[key] = v` over an insertion-ordered association list: update in
place when present, append otherwise. -/
def dictSet : List (List Char × Nat) → List Char → Nat → List (List Char × Nat)
  | [], key, v => [(key, v)]
  | (k, w) :: rest, key, v =>
    if k = key then (key, v) :: rest else (k, w) :: dictSet rest key v

/-- `cmd_type = data[:2].decode('ascii', errors='replace')` (udp_receiver.py
line 197); the `except` fallback on line 199 is unreachable because
replacement-mode decoding never raises. -/
def cmdKey (data : List Nat) : List Char :=
  asciiReplace (data.take 2)

/-- The per-datagram body of `udp_listener`'s receive loop (udp_receiver.py
lines 174-201): increment `total_packets`, parse, append to the bounded
`last_commands` ring (`[-100:]` when over 100 entries), and — only when the
datagram has at least 2 bytes — bump `command_counts[cmd_type]`.  Socket,
console-logging and log-file writes are elided. -/
def udp_listener_step (st : Stats) (data : List Nat) : Stats :=
  let info := parse_resim_data data
  let lc := st.last_commands ++ [(hexlify data, info)]
  let lc2 := if 100 < lc.length then lc.drop (lc.length - 100) else lc
  let st1 : Stats :=
    { total_packets := st.total_packets + 1
      command_counts := st.command_counts
      last_commands := lc2 }
  if 2 ≤ data.length then
    { st1 with
        command_counts :=
          dictSet st1.command_counts (cmdKey data)
            (dictGet st1.command_counts (cmdKey data) + 1) }
  else st1

/-- Marks the parse results produced by an `except struct.error` handler, i.e.
the outcomes reached only when an int32 unpack found fewer than 4 bytes. -/
def isUnpackFailure : ParseResult → Bool
  | .testMessageNoCounter _ => true
  | .simStatusError _ => true
  | .laneChangeCmdError _ => true
  | .laneChangeRespError _ => true
  | _ => false

/-! ### Helper lemmas -/

lemma slice_take_four_length (data : List Nat) (n : Nat) (h : n + 4 ≤ data.length) :
    ((data.drop n).take 4).length = 4 := by
  simp only [List.length_take, List.length_drop]
  omega

lemma unpack_of_length_four (bs : List Nat) (h : bs.length = 4) :
    unpack_i32le bs = some (toI32le bs) := by
  simp [unpack_i32le, h]

lemma tspy_start_prefix2 (data : List Nat)
    (h : bytesStartWith data [84, 83, 80, 89] = true) :
    prefix2Of data = ['T', 'S'] := by
  match data with
  | [] => simp [bytesStartWith] at h
  | [b] => simp [bytesStartWith] at h
  | b0 :: b1 :: rest =>
    simp only [bytesStartWith, Bool.and_eq_true, beq_iff_eq] at h
    obtain ⟨rfl, rfl, -⟩ := h
    have htake : (84 :: 83 :: rest).take 2 = [84, 83] := rfl
    unfold prefix2Of
    rw [htake]
    decide

lemma ssBranch_no_failure (data : List Nat) :
    isUnpackFailure (ssBranch data) = false := by
  unfold ssBranch
  split
  next h =>
    rw [unpack_of_length_four _ (slice_take_four_length data 2 (by omega))]
    rfl
  next h => rfl

lemma clBranch_eq (data : List Nat) (h : 14 ≤ data.length) :
    clBranch data =
      .laneChangeCmd (toI32le ((data.drop 2).take 4)) (toI32le ((data.drop 6).take 4))
        (toI32le ((data.drop 10).take 4)) := by
  unfold clBranch
  rw [unpack_of_length_four _ (slice_take_four_length data 2 (by omega)),
    unpack_of_length_four _ (slice_take_four_length data 6 (by omega)),
    unpack_of_length_four _ (slice_take_four_length data 10 (by omega))]

lemma rlBranch_eq (data : List Nat) (h : 14 ≤ data.length) :
    rlBranch data =
      .laneChangeResp (toI32le ((data.drop 2).take 4)) (toI32le ((data.drop 6).take 4))
        (toI32le ((data.drop 10).take 4)) := by
  unfold rlBranch
  rw [unpack_of_length_four _ (slice_take_four_length data 2 (by omega)),
    unpack_of_length_four _ (slice_take_four_length data 6 (by omega)),
    unpack_of_length_four _ (slice_take_four_length data 10 (by omega))]

lemma hexlify_length (data : List Nat) : (hexlify data).length = 2 * data.length := by
  induction data with
  | nil => rfl
  | cons b bs ih => simp [hexlify, ih]; omega

lemma dictGet_set_self (l : List (List Char × Nat)) (k : List Char) (v : Nat) :
    dictGet (dictSet l k v) k = v := by
  induction l with
  | nil => simp [dictSet, dictGet]
  | cons p rest ih =>
    obtain ⟨k', w⟩ := p
    by_cases h : k' = k
    · simp [dictSet, dictGet, h]
    · simp [dictSet, dictGet, h, ih]

lemma dictGet_set_ne (l : List (List Char × Nat)) (k k' : List Char) (v : Nat)
    (h : k' ≠ k) : dictGet (dictSet l k v) k' = dictGet l k' := by
  induction l with
  | nil => simp [dictSet, dictGet, Ne.symm h]
  | cons p rest ih =>
    obtain ⟨k0, w⟩ := p
    by_cases h0 : k0 = k
    · subst h0
      simp [dictSet, dictGet, Ne.symm h]
    · simp [dictSet, dictGet, h0, ih]

lemma prefix2Of_cons (b0 b1 : Nat) (rest : List Nat) :
    prefix2Of (b0 :: b1 :: rest) = [asciiReplaceChar b0, asciiReplaceChar b1] := by
  simp [prefix2Of, asciiReplace]

lemma prefix3Of_cons (b0 b1 : Nat) (rest : List Nat) :
    prefix3Of (b0 :: b1 :: rest) =
      asciiReplaceChar b0 :: asciiReplaceChar b1 :: (rest.take 1).map asciiReplaceChar := by
  unfold prefix3Of
  cases rest with
  | nil => simp [prefix2Of, asciiReplace]
  | cons c cs => simp [asciiReplace]

/-- Distinguishes the "packet too short" return (udp_receiver.py line 50). -/
def isTooShortResult : ParseResult → Bool
  | .tooShort _ => true
  | _ => false

/-! ### Claim theorems -/

/-- Claim C1: for every agentId, direction and mode (within the int32 domain of
`struct.pack('<i', ·)`), `create_lane_change_command` produces ASCII `"CL"`
(bytes 0x43 0x4C) followed by the three values as little-endian int32 in the
order agentId, direction, mode, for a total of 14 bytes.  The concrete
scenario (agentId=10, direction=0, mode=1 ↦ `43 4C 0A 00 00 00 00 00 00 00 01
00 00 00`) is the witness theorem. -/
theorem c1_encode_lane_change_layout (agent_id direction mode : Int)
    (ha : int32Ok agent_id) (hd : int32Ok direction) (hm : int32Ok mode) :
    create_lane_change_command agent_id direction mode =
      some (67 :: 76 :: (i32le agent_id ++ i32le direction ++ i32le mode)) ∧
    (67 :: 76 :: (i32le agent_id ++ i32le direction ++ i32le mode)).length = 14 := by
  constructor
  · rw [create_lane_change_command, if_pos ⟨ha, hd, hm⟩]
  · simp [i32le]

/-- Witness for C1: the spec's concrete scenario, 14 exact bytes. -/
theorem c1_encode_lane_change_layout_witness :
    create_lane_change_command 10 0 1 =
      some [67, 76, 10, 0, 0, 0, 0, 0, 0, 0, 1, 0, 0, 0] := by
  rw [(c1_encode_lane_change_layout 10 0 1 (by decide) (by decide) (by decide)).1]
  decide

/-- Counterexample for C8: encoding a LaneChange with direction = 5 (outside
{0,1}) is not rejected: the command is produced with the out-of-range value
packed onto the wire at bytes 6..10. -/
theorem c8_out_of_range_direction_packed :
    create_lane_change_command 10 5 1 =
      some [67, 76, 10, 0, 0, 0, 5, 0, 0, 0, 1, 0, 0, 0] := by decide

/-- Claim C8 (amended): `create_lane_change_command` performs no validation of
direction/mode: any int32-range arguments encode successfully (whether or not
they lie in {0,1}); encoding fails only when `struct.pack` rejects a value
outside the int32 range. -/
theorem c8_encode_in_range_never_fails (agent_id direction mode : Int)
    (ha : int32Ok agent_id) (hd : int32Ok direction) (hm : int32Ok mode) :
    (create_lane_change_command agent_id direction mode).isSome = true := by
  rw [create_lane_change_command, if_pos ⟨ha, hd, hm⟩]
  rfl

/-- Witness for C8 (amended), at the out-of-range direction value 5. -/
theorem c8_encode_in_range_never_fails_witness :
    (create_lane_change_command 10 5 1).isSome = true :=
  c8_encode_in_range_never_fails 10 5 1 (by decide) (by decide) (by decide)

/-- Claim C3 (code bug): the frame `"TSPY" + int32 7 + "ok"` is matched by the
2-byte `TS` branch (udp_receiver.py line 89), which the if/elif chain tests
before the 4-byte `TSPY` branch (line 93); the frame is reported as a
traffic-signal blob, not decoded by the TSPY entry, so prefix resolution is
not greedy-longest and the TSPY handler is unreachable. -/
theorem c3_tspy_frame_hits_ts_branch :
    parse_resim_data [84, 83, 80, 89, 7, 0, 0, 0, 111, 107] =
      ParseResult.trafficSignal 10 ∧
    parse_resim_data [84, 83, 80, 89, 7, 0, 0, 0, 111, 107] ≠
      ParseResult.testMessage 7 [111, 107] := by decide

/-- Claim C4 (code bug): the frame `"TSPY" + int32 1 + "Hi"` (length ≥ 8) is
not decoded as a CounterTestMessage; it falls into the earlier `TS` branch and
is reported as a traffic-signal blob of its length. -/
theorem c4_tspy_decoded_as_traffic_blob :
    parse_resim_data [84, 83, 80, 89, 1, 0, 0, 0, 72, 105] =
      ParseResult.trafficSignal 10 ∧
    parse_resim_data [84, 83, 80, 89, 1, 0, 0, 0, 72, 105] ≠
      ParseResult.testMessage 1 [72, 105] := by decide

/-- Claim C5: `parse_resim_data` is total: on every byte string — empty,
truncated or malformed — it returns a defined result.  The embedding is a
total function (the replacement-mode decodes cannot raise and every
`struct.unpack` site is modelled as fallible), and this theorem shows in
addition that no execution ever reaches an `except struct.error` handler,
i.e. every int32 unpack that is executed has its full 4 bytes in bounds, and
that inputs shorter than 2 bytes produce the "too short" error value rather
than a fault. -/
theorem c5_parse_total (data : List Nat) :
    isUnpackFailure (parse_resim_data data) = false ∧
    (data.length < 2 → parse_resim_data data = ParseResult.tooShort (hexlify data)) := by
  constructor
  · unfold parse_resim_data
    by_cases h1 : data.length < 2
    · rw [if_pos h1]; rfl
    rw [if_neg h1]
    by_cases h2 : prefix3Of data = ['R', 'S', 'd']
    · rw [if_pos h2]
      by_cases h2a : data.length = 3
      · rw [if_pos h2a]; rfl
      · rw [if_neg h2a]; rfl
    rw [if_neg h2]
    by_cases h3 : bytesStartWith data [84, 69, 83, 84, 95] = true
    · rw [if_pos h3]; rfl
    rw [if_neg h3]
    by_cases h4 : prefix2Of data = ['A', 'P']
    · rw [if_pos h4]; rfl
    rw [if_neg h4]
    by_cases h5 : prefix2Of data = ['A', 'S']
    · rw [if_pos h5]; rfl
    rw [if_neg h5]
    by_cases h6 : prefix2Of data = ['T', 'S']
    · rw [if_pos h6]; rfl
    rw [if_neg h6]
    by_cases h7 : bytesStartWith data [84, 83, 80, 89] = true
    · exact absurd (tspy_start_prefix2 data h7) h6
    rw [if_neg h7]
    by_cases h8 : prefix2Of data = ['S', 'S']
    · rw [if_pos h8]
      exact ssBranch_no_failure data
    rw [if_neg h8]
    by_cases h9 : prefix2Of data = ['C', 'L'] ∧ 14 ≤ data.length
    · rw [if_pos h9, clBranch_eq data h9.2]; rfl
    rw [if_neg h9]
    by_cases h10 : prefix2Of data = ['R', 'L'] ∧ 14 ≤ data.length
    · rw [if_pos h10, rlBranch_eq data h10.2]; rfl
    rw [if_neg h10]
    by_cases h11 : prefix2Of data = ['C', 'S']
    · rw [if_pos h11]; rfl
    rw [if_neg h11]
    by_cases h12 : prefix2Of data = ['C', 'P']
    · rw [if_pos h12]; rfl
    rw [if_neg h12]
    by_cases h13 : prefix2Of data = ['C', 'R']
    · rw [if_pos h13]; rfl
    rw [if_neg h13]
    by_cases h14 : prefix2Of data = ['R', 'S'] ∨ prefix2Of data = ['R', 'P'] ∨
        prefix2Of data = ['R', 'Q'] ∨ prefix2Of data = ['C', 'C']
    · rw [if_pos h14]; rfl
    rw [if_neg h14]; rfl
  · intro h
    unfold parse_resim_data
    rw [if_pos h]

/-- Witness for C5 at the empty input: a defined error value, no fault. -/
theorem c5_parse_total_witness :
    parse_resim_data [] = ParseResult.tooShort [] := by
  have h := (c5_parse_total []).2 (by decide)
  rwa [show hexlify [] = [] from rfl] at h

/-- Claim C7: every frame starting with ASCII `"RL"` (bytes 0x52 0x4C) of
length at least 14 decodes to a lane-change response whose agentId, result and
reasonCode are the three consecutive little-endian int32 values after the
prefix, and the response is rendered as successful exactly when result = 1. -/
theorem c7_rl_decode (data : List Nat) (hpre : data.take 2 = [82, 76])
    (hlen : 14 ≤ data.length) :
    parse_resim_data data =
      ParseResult.laneChangeResp (toI32le ((data.drop 2).take 4))
        (toI32le ((data.drop 6).take 4)) (toI32le ((data.drop 10).take 4)) ∧
    (rl_succeeded (toI32le ((data.drop 6).take 4)) = true ↔
      toI32le ((data.drop 6).take 4) = 1) := by
  refine ⟨?_, by simp [rl_succeeded]⟩
  cases data with
  | nil => simp at hpre
  | cons b0 t =>
    cases t with
    | nil => simp at hpre
    | cons b1 rest =>
      simp only [List.take_succ_cons, List.take_zero, List.cons.injEq, and_true] at hpre
      obtain ⟨rfl, rfl⟩ := hpre
      unfold parse_resim_data
      rw [if_neg (by simp only [List.length_cons]; omega)]
      rw [if_neg (by
        rw [prefix3Of_cons]
        intro hEq
        injection hEq with hEq1 hEq2
        injection hEq2 with hEq2 _
        exact absurd hEq2 (by decide))]
      rw [if_neg (by simp [bytesStartWith])]
      rw [if_neg (by rw [prefix2Of_cons]; decide)]
      rw [if_neg (by rw [prefix2Of_cons]; decide)]
      rw [if_neg (by rw [prefix2Of_cons]; decide)]
      rw [if_neg (by simp [bytesStartWith])]
      rw [if_neg (by rw [prefix2Of_cons]; decide)]
      rw [if_neg (by intro hAnd; exact absurd hAnd.1 (by rw [prefix2Of_cons]; decide))]
      rw [if_pos ⟨by rw [prefix2Of_cons]; decide, hlen⟩]
      exact rlBranch_eq _ hlen

/-- Witness for C7: the spec's concrete scenario
`52 4C 0A 00 00 00 01 00 00 00 00 00 00 00` decodes to
agentId = 10, result = 1 (success), reasonCode = 0. -/
theorem c7_rl_decode_witness :
    parse_resim_data [82, 76, 10, 0, 0, 0, 1, 0, 0, 0, 0, 0, 0, 0] =
      ParseResult.laneChangeResp 10 1 0 ∧ rl_succeeded 1 = true := by
  have h := c7_rl_decode [82, 76, 10, 0, 0, 0, 1, 0, 0, 0, 0, 0, 0, 0]
    (by decide) (by decide)
  exact ⟨by rw [h.1]; decide, by decide⟩

/-- Counterexample for C2: decoding the 2-byte input `43 4C` (prefix `CL`,
below the 14-byte minimum) does not produce the "too short" error value; it
falls through the whole if/elif chain (the `CL` branch requires
`len(data) >= 14` to match at all) and yields the generic unrecognized
result. -/
theorem c2_short_cl_not_too_short_cex :
    isTooShortResult (parse_resim_data [67, 76]) = false ∧
    parse_resim_data [67, 76] =
      ParseResult.unrecognized ['C', 'L'] 2 ['4', '3', '4', 'c'] := by decide

/-- Claim C2 (amended): for every byte string whose first two bytes are ASCII
`"CL"` but whose length is below 14, decode returns the generic Unrecognized
result (prefix, length, truncated hex) — never an index/bounds fault, but
also not `DecodeError{TooShort}`, which the code reserves for inputs shorter
than 2 bytes. -/
theorem c2_short_cl_unrecognized (data : List Nat) (hpre : data.take 2 = [67, 76])
    (hlen : data.length < 14) :
    parse_resim_data data =
      ParseResult.unrecognized (prefix4Of data) data.length ((hexlify data).take 60) := by
  cases data with
  | nil => simp at hpre
  | cons b0 t =>
    cases t with
    | nil => simp at hpre
    | cons b1 rest =>
      simp only [List.take_succ_cons, List.take_zero, List.cons.injEq, and_true] at hpre
      obtain ⟨rfl, rfl⟩ := hpre
      unfold parse_resim_data
      rw [if_neg (by simp only [List.length_cons]; omega)]
      rw [if_neg (by
        rw [prefix3Of_cons]
        intro hEq
        injection hEq with hEq1 _
        exact absurd hEq1 (by decide))]
      rw [if_neg (by simp [bytesStartWith])]
      rw [if_neg (by rw [prefix2Of_cons]; decide)]
      rw [if_neg (by rw [prefix2Of_cons]; decide)]
      rw [if_neg (by rw [prefix2Of_cons]; decide)]
      rw [if_neg (by simp [bytesStartWith])]
      rw [if_neg (by rw [prefix2Of_cons]; decide)]
      rw [if_neg (by intro hAnd; omega)]
      rw [if_neg (by intro hAnd; exact absurd hAnd.1 (by rw [prefix2Of_cons]; decide))]
      rw [if_neg (by rw [prefix2Of_cons]; decide)]
      rw [if_neg (by rw [prefix2Of_cons]; decide)]
      rw [if_neg (by rw [prefix2Of_cons]; decide)]
      rw [if_neg (by rw [prefix2Of_cons]; decide)]

/-- Witness for C2 (amended) at the spec's own scenario input `43 4C`. -/
theorem c2_short_cl_unrecognized_witness :
    parse_resim_data [67, 76] =
      ParseResult.unrecognized ['C', 'L'] 2 ['4', '3', '4', 'c'] := by
  rw [c2_short_cl_unrecognized [67, 76] (by decide) (by decide)]
  decide

/-- Counterexample for C6: a 31-byte frame of zero bytes matches no prefix and
yields the Unrecognized result, but the hex dump it carries is `hex_data[:60]`
— 60 characters — while the full hex representation of the input has 62
characters, so the carried hex is not the original bytes' representation
unchanged. -/
theorem c6_long_frame_hex_truncated_cex :
    parse_resim_data (List.replicate 31 0) =
      ParseResult.unrecognized (List.replicate 4 (Char.ofNat 0)) 31
        (List.replicate 60 '0') ∧
    List.replicate 60 '0' ≠ hexlify (List.replicate 31 0) := by decide

/-- Claim C6 (amended): for every byte string of length at least 2 on which no
branch of the if/elif chain fires, decode returns Unrecognized carrying the
frame's 2-4 byte prefix, its length, and its hex representation truncated to
the first 60 hex characters — which equals the complete hex representation
exactly when the input is at most 30 bytes long. -/
theorem c6_unrecognized_carries_truncated_hex (data : List Nat)
    (h1 : 2 ≤ data.length)
    (h2 : prefix3Of data ≠ ['R', 'S', 'd'])
    (h3 : bytesStartWith data [84, 69, 83, 84, 95] = false)
    (h4 : prefix2Of data ≠ ['A', 'P'])
    (h5 : prefix2Of data ≠ ['A', 'S'])
    (h6 : prefix2Of data ≠ ['T', 'S'])
    (h7 : bytesStartWith data [84, 83, 80, 89] = false)
    (h8 : prefix2Of data ≠ ['S', 'S'])
    (h9 : ¬(prefix2Of data = ['C', 'L'] ∧ 14 ≤ data.length))
    (h10 : ¬(prefix2Of data = ['R', 'L'] ∧ 14 ≤ data.length))
    (h11 : prefix2Of data ≠ ['C', 'S'])
    (h12 : prefix2Of data ≠ ['C', 'P'])
    (h13 : prefix2Of data ≠ ['C', 'R'])
    (h14 : ¬(prefix2Of data = ['R', 'S'] ∨ prefix2Of data = ['R', 'P'] ∨
      prefix2Of data = ['R', 'Q'] ∨ prefix2Of data = ['C', 'C'])) :
    parse_resim_data data =
      ParseResult.unrecognized (prefix4Of data) data.length ((hexlify data).take 60) ∧
    (data.length ≤ 30 → (hexlify data).take 60 = hexlify data) := by
  constructor
  · unfold parse_resim_data
    rw [if_neg (by omega), if_neg h2, if_neg (by simp [h3]), if_neg h4, if_neg h5,
      if_neg h6, if_neg (by simp [h7]), if_neg h8, if_neg h9, if_neg h10, if_neg h11,
      if_neg h12, if_neg h13, if_neg h14]
  · intro hlen
    exact List.take_of_length_le (by rw [hexlify_length]; omega)

/-- Witness for C6 (amended): the 2-byte frame `01 02` matches nothing and is
reported with its complete 4-character hex dump. -/
theorem c6_unrecognized_carries_truncated_hex_witness :
    parse_resim_data [1, 2] =
      ParseResult.unrecognized [Char.ofNat 1, Char.ofNat 2] 2 ['0', '1', '0', '2'] := by
  have h := c6_unrecognized_carries_truncated_hex [1, 2] (by decide) (by decide)
    (by decide) (by decide) (by decide) (by decide) (by decide) (by decide)
    (by decide) (by decide) (by decide) (by decide) (by decide) (by decide)
  rw [h.1]
  decide

/-- Counterexample for C9: processing the 1-byte frame `41` increments the
total packet count but updates no per-prefix counter at all (the
`command_counts` update is guarded by `len(data) >= 2`), so the per-prefix
counter for the frame's key does not increase by 1. -/
theorem c9_short_frame_no_key_update_cex :
    (udp_listener_step ⟨0, [], []⟩ [65]).command_counts = [] ∧
    (udp_listener_step ⟨0, [], []⟩ [65]).total_packets = 1 := by decide

/-- Claim C9 (amended): for every frame processed by the receive loop,
regardless of the decode outcome, the total packet count increases by exactly
1; the per-prefix counter for the frame's key (its first 2 bytes, decoded as
ASCII with replacement) increases by exactly 1 — with all other keys
unchanged — whenever the frame is at least 2 bytes long, while frames shorter
than 2 bytes leave every per-prefix counter untouched. -/
theorem c9_stats_updated_once (st : Stats) (data : List Nat) :
    (udp_listener_step st data).total_packets = st.total_packets + 1 ∧
    (2 ≤ data.length →
      dictGet (udp_listener_step st data).command_counts (cmdKey data) =
        dictGet st.command_counts (cmdKey data) + 1 ∧
      ∀ k, k ≠ cmdKey data →
        dictGet (udp_listener_step st data).command_counts k =
          dictGet st.command_counts k) ∧
    (data.length < 2 →
      (udp_listener_step st data).command_counts = st.command_counts) := by
  refine ⟨?_, fun h => ⟨?_, fun k hk => ?_⟩, fun h => ?_⟩
  · simp only [udp_listener_step]
    split <;> rfl
  · simp only [udp_listener_step]
    rw [if_pos h]
    exact dictGet_set_self _ _ _
  · simp only [udp_listener_step]
    rw [if_pos h]
    exact dictGet_set_ne _ _ _ _ hk
  · simp only [udp_listener_step]
    rw [if_neg (by omega)]

/-- Witness for C9 (amended): processing the 3-byte sync frame `52 53 64`
("RSd") on empty stats yields a count of 1 under key "RS". -/
theorem c9_stats_updated_once_witness :
    dictGet (udp_listener_step ⟨0, [], []⟩ [82, 83, 100]).command_counts
      (cmdKey [82, 83, 100]) = 1 := by
  have h := ((c9_stats_updated_once ⟨0, [], []⟩ [82, 83, 100]).2.1 (by decide)).1
  rw [h]
  decide

/-- Claim C10: for every frame of length at least 2, the per-key statistics
update uses the key `data[:2].decode('ascii', errors='replace')` — the
frame's first 2 bytes — independent of which decode branch matched, so a
frame beginning with the 4-byte `TSPY` layout is counted under "TS" and an
`RSd` frame under "RS". -/
theorem c10_stats_key_first_two_bytes (st : Stats) (data : List Nat)
    (h : 2 ≤ data.length) :
    (udp_listener_step st data).command_counts =
      dictSet st.command_counts (cmdKey data)
        (dictGet st.command_counts (cmdKey data) + 1) := by
  simp only [udp_listener_step]
  rw [if_pos h]

/-- Witness for C10: the TSPY counter frame `"TSPY" + int32 1` is counted
under the 2-byte key "TS". -/
theorem c10_stats_key_first_two_bytes_witness :
    (udp_listener_step ⟨0, [], []⟩ [84, 83, 80, 89, 1, 0, 0, 0]).command_counts =
      [(['T', 'S'], 1)] := by
  rw [c10_stats_key_first_two_bytes ⟨0, [], []⟩ [84, 83, 80, 89, 1, 0, 0, 0] (by decide)]
  decide

end ResimUdp
